import Mathlib

/-
  Shallow embedding of the indoelectricmart.in Django catalog application
  (files indoApp/models.py, indoApp/serializers.py, indoApp/views.py,
  indoApp/admin.py), together with theorems settling the specification
  claims about the category hierarchy, the attribute/value subsystem and
  the search endpoint.

  Model rows are Lean structures; the database is an explicit Catalog
  value holding lists of rows.  Django ORM queries are embedded as list
  operations.  A Django query that references a field name that does not
  resolve on the model (the ORM raises FieldError at queryset
  construction time) is embedded as a computation in Except that returns
  an error; likewise a Python attribute access on a model instance that
  has no such attribute (AttributeError).
-/

namespace Indo

/-- Models the Category row of indoApp/models.py: id primary key, nullable
self parent foreign key, name, slug, is_active flag. -/
structure Category where
  id : Nat
  parent : Option Nat
  name : String
  slug : String
  is_active : Bool
deriving DecidableEq, Repr

/-- Models the Brand row of indoApp/models.py. -/
structure Brand where
  id : Nat
  name : String
  is_active : Bool
deriving DecidableEq, Repr

/-- Models the Product row of indoApp/models.py: category is a non-null
foreign key (on_delete PROTECT), brand a nullable foreign key
(on_delete SET_NULL).  created_at is a timestamp, embedded as a Nat. -/
structure Product where
  id : Nat
  category : Nat
  brand : Option Nat
  name : String
  slug : String
  is_active : Bool
  created_at : Nat
deriving DecidableEq, Repr

/-- Models the Attribute row of indoApp/models.py: data_type is one of
the DATA_TYPES choices text, number, bool, choice. -/
structure Attribute where
  id : Nat
  name : String
  data_type : String
deriving DecidableEq, Repr

/-- Models the CategoryAttribute join row (unique together on
category and attribute); surrogate primary key omitted.  The ORM field
named attribute is embedded under its database column name
attribute_id, since its ORM name is a reserved word here. -/
structure CategoryAttribute where
  category : Nat
  attribute_id : Nat
deriving DecidableEq, Repr

/-- Models the ProductAttributeValue row of indoApp/models.py (unique
together on product and attribute); the three nullable payload columns
value_text, value_number, value_bool; surrogate primary key omitted,
the decimal column embedded as Int. -/
structure ProductAttributeValue where
  product : Nat
  attribute_id : Nat
  value_text : Option String
  value_number : Option Int
  value_bool : Option Bool
deriving DecidableEq, Repr

/-- Models the BrandBrochure row: brand and category foreign keys, both
on_delete CASCADE; surrogate primary key and file fields omitted. -/
structure BrandBrochure where
  brand : Nat
  category : Nat
deriving DecidableEq, Repr

/-- The database state: one list of rows per model table. -/
structure Catalog where
  categories : List Category
  brands : List Brand
  products : List Product
  attributes : List Attribute
  categoryAttributes : List CategoryAttribute
  pavs : List ProductAttributeValue
  brochures : List BrandBrochure
deriving DecidableEq, Repr

/-- Look a category row up by primary key. -/
def findCategory (s : Catalog) (cid : Nat) : Option Category :=
  s.categories.find? (fun c => c.id = cid)

/-- Look a brand row up by primary key. -/
def findBrand (s : Catalog) (bid : Nat) : Option Brand :=
  s.brands.find? (fun b => b.id = bid)

/-- The parent id stored on the category row with the given primary key
(none if the row is absent or its parent column is null). -/
def lookupParentId (s : Catalog) (cid : Nat) : Option Nat :=
  (findCategory s cid).bind (fun c => c.parent)

/-- The reverse children relation of the self foreign key: all rows
whose parent column equals the id of the given row. -/
def childrenOf (s : Catalog) (c : Category) : List Category :=
  s.categories.filter (fun d => d.parent = some c.id)

/-- The id of the parent of the parent of the given row, resolved
through the stored rows (none when the chain ends earlier). -/
def grandparentId (s : Catalog) (c : Category) : Option Nat :=
  match c.parent with
  | none => none
  | some pid => lookupParentId s pid

/- ===============================================================
   C1: level classification.
   =============================================================== -/

/-- Embeds CategorySerializer.get_category_type
(indoApp/serializers.py lines 21 to 26): MAIN when the parent column is
null, otherwise SUB when the children relation is non-empty, otherwise
LEAF.  Note the SUB versus LEAF split inspects the children relation,
not the parent chain. -/
def get_category_type (s : Catalog) (c : Category) : String :=
  if c.parent = none then "MAIN"
  else if (childrenOf s c).isEmpty then "LEAF"
  else "SUB"

/-- Embeds CategoryAdmin.category_level (indoApp/admin.py lines 164 to
171), stripped of the HTML markup: Main when parent_id is null, Sub
when the parent row has a null parent_id, Sub Name otherwise. -/
def category_level (s : Catalog) (c : Category) : String :=
  match c.parent with
  | none => "Main"
  | some pid =>
    match lookupParentId s pid with
    | none => "Sub"
    | some _ => "Sub Name"

/- ===============================================================
   C10: slug generation on save.
   =============================================================== -/

/-- True for the characters django.utils.text.slugify keeps before
collapsing: word characters, whitespace and hyphens (ASCII model). -/
def slugKeep (c : Char) : Bool :=
  c.isAlphanum || c = '_' || c = '-' || c.isWhitespace

/-- Collapses every run of hyphens and whitespace to a single hyphen,
as the final regular expression of django.utils.text.slugify does. -/
def collapseRuns : List Char → List Char
  | [] => []
  | c :: rest =>
    if c = '-' || c.isWhitespace then
      match collapseRuns rest with
      | [] => ['-']
      | d :: ds => if d = '-' then d :: ds else '-' :: d :: ds
    else c :: collapseRuns rest

/-- True for the characters stripped from both ends by slugify. -/
def slugStripChar (c : Char) : Bool := c = '-' || c = '_'

/-- Embeds django.utils.text.slugify restricted to ASCII input:
lower-case, drop characters that are not word characters, whitespace or
hyphens, collapse hyphen and whitespace runs to single hyphens, and
strip hyphens and underscores from both ends. -/
def slugify (str : String) : String :=
  let kept := (str.toList.map Char.toLower).filter slugKeep
  let collapsed := collapseRuns kept
  let stripped :=
    ((collapsed.dropWhile slugStripChar).reverse.dropWhile slugStripChar).reverse
  String.mk stripped

/-- Embeds Category.save (indoApp/models.py lines 26 to 29): the slug
is derived from the name only when the slug field is falsy (empty). -/
def categorySave (c : Category) : Category :=
  if c.slug = "" then { c with slug := slugify c.name } else c

/- ===============================================================
   Django ORM field resolution.

   The search view filters on lookup paths such as category__full_path
   and category_type.  Those names are SerializerMethodFields of
   CategorySerializer, not columns of the Category model
   (indoApp/models.py declares only id, parent, name, slug, is_active),
   so the ORM raises FieldError when the queryset is constructed,
   independently of the table contents.  The embedding reproduces this
   by checking every lookup path of a filter against the declared model
   fields before any row is examined.
   =============================================================== -/

/-- The three models reachable from the search queries. -/
inductive Model where
  | catM
  | prodM
  | brandM
deriving DecidableEq, Repr

/-- The column and relation names declared on each model in
indoApp/models.py (reverse relations are not used by the filters that
matter here). -/
def modelFields : Model → List String
  | .catM => ["id", "parent", "name", "slug", "is_active"]
  | .prodM => ["id", "category", "brand", "name", "slug", "image", "rating",
               "min_order_quantity", "is_exclusive", "is_featured", "description",
               "price", "old_price", "stock", "is_active", "created_at"]
  | .brandM => ["id", "name", "logo", "is_active"]

/-- The forward foreign key relations declared in indoApp/models.py. -/
def relatedModel : Model → String → Option Model
  | .prodM, f => if f = "category" then some .catM
                 else if f = "brand" then some .brandM else none
  | .catM, f => if f = "parent" then some .catM else none
  | .brandM, _ => none

/-- Whether a double-underscore lookup path resolves on a model: every
intermediate segment must be a declared relation and the final segment
a declared field. -/
def resolvePath : Model → List String → Bool
  | _, [] => false
  | m, [f] => (modelFields m).contains f
  | m, f :: g :: rest =>
    match relatedModel m f with
    | some m2 => resolvePath m2 (g :: rest)
    | none => false

/-- The runtime errors the embedded view code can raise. -/
inductive DjError where
  | fieldError
  | attributeError
deriving DecidableEq, Repr

/-- Embeds queryset construction: Django resolves every lookup path of
a filter eagerly and raises FieldError if any fails, before reading any
row. -/
def checkPaths (m : Model) (paths : List (List String)) : Except DjError Unit :=
  if paths.all (fun p => resolvePath m p) then .ok () else .error .fieldError

/- ===============================================================
   String matching and ordering helpers.
   =============================================================== -/

/-- Whether the first character list occurs contiguously in the second. -/
def isSubseqAt (needle hay : List Char) : Bool :=
  (List.range (hay.length + 1)).any
    (fun i => ((hay.drop i).take needle.length) == needle)

/-- Embeds the icontains lookup: case-insensitive substring test. -/
def icontains (hay q : String) : Bool :=
  isSubseqAt (q.toList.map Char.toLower) (hay.toList.map Char.toLower)

/-- Insertion step of a stable insertion sort. -/
def insertLe (le : α → α → Bool) (a : α) : List α → List α
  | [] => [a]
  | b :: l => if le a b then a :: b :: l else b :: insertLe le a l

/-- Insertion sort used to embed order_by clauses. -/
def sortLe (le : α → α → Bool) (l : List α) : List α :=
  l.foldr (insertLe le) []

/-- Comparison embedding order_by minus created_at (newest first). -/
def prodCreatedDesc (a b : Product) : Bool :=
  decide (b.created_at ≤ a.created_at)

/-- Comparison embedding order_by name on brands. -/
def brandNameLe (a b : Brand) : Bool :=
  decide (a.name ≤ b.name)

/-- Rank of a nullable foreign key column for ordering, nulls first. -/
def optRank : Option Nat → Nat
  | none => 0
  | some p => p + 1

/-- Comparison embedding order_by parent id then name on categories. -/
def catParentNameLe (a b : Category) : Bool :=
  decide (optRank a.parent < optRank b.parent) ||
    (decide (optRank a.parent = optRank b.parent) && decide (a.name ≤ b.name))

/- ===============================================================
   The search endpoint (SearchAPIView, indoApp/views.py).
   =============================================================== -/

/-- The lookup paths of the product search filter
(indoApp/views.py lines 212 to 218).  The path category, full_path does
not resolve: full_path is not a column of Category. -/
def productSearchPaths : List (List String) :=
  [["name"], ["slug"], ["category", "name"], ["category", "full_path"],
   ["brand", "name"]]

/-- Row predicate of the product search for the lookups that do
resolve; the category full_path disjunct has no column value to read
and is unreachable because checkPaths rejects the whole query first. -/
def productMatches (s : Catalog) (q : String) (p : Product) : Bool :=
  icontains p.name q || icontains p.slug q ||
  (match findCategory s p.category with
   | some c => icontains c.name q
   | none => false) ||
  (match p.brand.bind (findBrand s) with
   | some b => icontains b.name q
   | none => false)

/-- Embeds the product branch of SearchAPIView.get (views.py lines 209
to 220): active products matching the query, newest first, truncated to
the products limit. -/
def searchProducts (s : Catalog) (q : String) (limit : Nat) :
    Except DjError (List Product) := do
  let _ ← checkPaths .prodM productSearchPaths
  pure ((sortLe prodCreatedDesc
    ((s.products.filter (fun p => p.is_active)).filter (productMatches s q))).take limit)

/-- Embeds the brand branch of SearchAPIView.get (views.py lines 257 to
261): active brands whose name matches, ordered by name, truncated. -/
def searchBrands (s : Catalog) (q : String) (limit : Nat) : List Brand :=
  (sortLe brandNameLe
    ((s.brands.filter (fun b => b.is_active)).filter
      (fun b => icontains b.name q))).take limit

/-- The lookup paths of the category search filter (views.py lines 278
to 281); full_path does not resolve on Category. -/
def categorySearchPaths : List (List String) :=
  [["name"], ["slug"], ["full_path"]]

/-- Embeds the category candidate fetch of SearchAPIView.get (views.py
lines 278 to 281): active categories matching the query, ordered by
parent id then name, sliced at two times the categories limit.  The
full_path disjunct of the row predicate is unreachable because
checkPaths rejects the query. -/
def searchCategories (s : Catalog) (q : String) (limit : Nat) :
    Except DjError (List Category) := do
  let _ ← checkPaths .catM categorySearchPaths
  pure ((sortLe catParentNameLe
    ((s.categories.filter (fun c => c.is_active)).filter
      (fun c => icontains c.name q || icontains c.slug q))).take (limit * 2))

/-- Python attribute names accessed on Category instances by the view. -/
inductive PyAttr where
  | nameA
  | slugA
  | categoryTypeA
  | fullPathA
deriving DecidableEq, Repr

/-- Embeds Python getattr on a Category model instance: category_type
and full_path are SerializerMethodFields of CategorySerializer, not
attributes of model instances, so accessing them raises
AttributeError. -/
def categoryGetattr (c : Category) : PyAttr → Except DjError String
  | .nameA => .ok c.name
  | .slugA => .ok c.slug
  | .categoryTypeA => .error .attributeError
  | .fullPathA => .error .attributeError

/-- Embeds SearchAPIView.get_leaf_descendants (views.py lines 165 to
181).  The first statement reads category.category_type, which raises
AttributeError; were it readable, the non-LEAF branch would filter on
the nonexistent columns category_type and full_path and raise
FieldError (its row value below is unreachable). -/
def get_leaf_descendants (s : Catalog) (c : Category) :
    Except DjError (List Category) := do
  let t ← categoryGetattr c .categoryTypeA
  if t = "LEAF" then
    pure (s.categories.filter (fun d => d.id == c.id && d.is_active))
  else do
    let _ ← checkPaths .catM [["is_active"], ["category_type"], ["full_path"]]
    pure []

/-- Embeds the leaf_slugs sub-query of SearchAPIView.get (views.py
lines 308 to 316): it filters on the nonexistent columns category_type
and full_path, so it raises FieldError; its row value is
unreachable. -/
def leafSlugsQuery (s : Catalog) (c : Category) : Except DjError (List String) := do
  let _ ← checkPaths .catM [["is_active"], ["category_type"], ["full_path"]]
  pure []

/-- Embeds the classification loop of SearchAPIView.get (views.py lines
288 to 326): each fetched candidate is read for category_type (an
AttributeError on a model instance), MAIN and SUB items get leaf slugs
attached, and each item is appended to its bucket. -/
def bucketLoop (s : Catalog) :
    List Category → Except DjError (List Category × List Category × List Category)
  | [] => .ok ([], [], [])
  | c :: rest => do
    let t ← categoryGetattr c .categoryTypeA
    let _ ← if t = "MAIN" || t = "SUB" then leafSlugsQuery s c else pure []
    let (m, sb, l) ← bucketLoop s rest
    if t = "MAIN" then pure (c :: m, sb, l)
    else if t = "SUB" then pure (m, c :: sb, l)
    else pure (m, sb, c :: l)

/-- The response shape of the search endpoint, with the three category
buckets; per-item JSON projection is not modelled. -/
structure SearchResponse where
  query : String
  products : List Product
  brands : List Brand
  mainCats : List Category
  subCats : List Category
  leafCats : List Category
deriving DecidableEq, Repr

/-- The canonical empty result returned for a blank query
(views.py lines 186 to 199). -/
def emptySearchResponse : SearchResponse :=
  { query := "", products := [], brands := [],
    mainCats := [], subCats := [], leafCats := [] }

/-- Embeds the Python str.strip method: remove leading and trailing
whitespace. -/
def pyStrip (str : String) : String :=
  String.mk
    (((str.toList.dropWhile Char.isWhitespace).reverse.dropWhile
      Char.isWhitespace).reverse)

/-- Embeds SearchAPIView.get (views.py lines 183 to 345): strip the
query, short-circuit to the canonical empty response when it is blank,
otherwise run the product, brand and category branches in source order
and truncate each category bucket after the classification loop. -/
def searchGet (s : Catalog) (qraw : String)
    (productsLimit categoriesLimit brandsLimit : Nat) :
    Except DjError SearchResponse :=
  let q := pyStrip qraw
  if q = "" then .ok emptySearchResponse
  else do
    let ps ← searchProducts s q productsLimit
    let bs := searchBrands s q brandsLimit
    let cs ← searchCategories s q categoriesLimit
    let (m, sb, l) ← bucketLoop s cs
    pure { query := q, products := ps, brands := bs,
           mainCats := m.take categoriesLimit,
           subCats := sb.take categoriesLimit,
           leafCats := l.take categoriesLimit }

/- ===============================================================
   C6: the admin parent-candidate queryset.
   =============================================================== -/

/-- Embeds CategoryAdmin.formfield_for_foreignkey for the parent field
(indoApp/admin.py lines 146 to 157): candidates are the categories
matching parent isnull or parent parent isnull, deduplicated, ordered
by parent id then name. -/
def validParentCandidates (s : Catalog) : List Category :=
  sortLe catParentNameLe
    ((s.categories.filter
      (fun c => c.parent.isNone || (grandparentId s c).isNone)).dedup)

/- ===============================================================
   C7: the product attribute inline formset.
   =============================================================== -/

/-- One form of the ProductAttributeValue inline formset: has_data
embeds the truthiness of cleaned_data, delete the DELETE flag, and
attribute_id the selected attribute (none when the field is blank). -/
structure AttrForm where
  has_data : Bool
  delete : Bool
  attribute_id : Option Nat
  value_text : Option String
  value_number : Option Int
  value_bool : Option Bool
deriving DecidableEq, Repr

/-- Errors of the batch save path: the formset validation error raised
by UniqueAttributeInlineFormSet.clean, and the database integrity error
of the unique_together constraint on (product, attribute). -/
inductive FormError where
  | duplicateAttribute
  | integrityError
deriving DecidableEq, Repr

/-- The forms the clean loop does not skip: cleaned_data truthy and
DELETE not set (indoApp/admin.py lines 219 to 221). -/
def keptForms (fs : List AttrForm) : List AttrForm :=
  fs.filter (fun f => f.has_data && !f.delete)

/-- The attribute choices of the kept forms, in form order. -/
def keptAttrIds (fs : List AttrForm) : List (Option Nat) :=
  (keptForms fs).map (fun f => f.attribute_id)

/-- Embeds the loop of UniqueAttributeInlineFormSet.clean
(indoApp/admin.py lines 214 to 226) with its seen set threaded
explicitly: skip empty and deleted forms, raise on a repeated
attribute, record each attribute once seen. -/
def formsetClean (seen : List (Option Nat)) :
    List AttrForm → Except FormError Unit
  | [] => .ok ()
  | f :: rest =>
    if !f.has_data || f.delete then formsetClean seen rest
    else if f.attribute_id ∈ seen then .error .duplicateAttribute
    else formsetClean (f.attribute_id :: seen) rest

/-- The whole-batch validation entry point: clean with an empty seen
set. -/
def cleanBatch (fs : List AttrForm) : Except FormError Unit :=
  formsetClean [] fs

/-- The uniqueness key of the unique_together constraint declared on
ProductAttributeValue (indoApp/models.py lines 153 to 154). -/
def pavKey (v : ProductAttributeValue) : Nat × Nat :=
  (v.product, v.attribute_id)

/-- The rows a validated batch would insert for one product: one row
per kept form that selected an attribute. -/
def newRows (pid : Nat) (fs : List AttrForm) : List ProductAttributeValue :=
  (keptForms fs).filterMap (fun f =>
    f.attribute_id.map (fun a =>
      { product := pid, attribute_id := a, value_text := f.value_text,
        value_number := f.value_number, value_bool := f.value_bool }))

/-- Embeds the transactional insert guarded by the unique_together
constraint: either every row is inserted and the key list stays free of
duplicates, or the transaction fails and the state is unchanged. -/
def insertRows (s : Catalog) (rows : List ProductAttributeValue) :
    Except FormError Catalog :=
  if ((s.pavs ++ rows).map pavKey).Nodup then
    .ok { s with pavs := s.pavs ++ rows }
  else .error .integrityError

/-- The admin save path for one product inline batch: formset
validation first, persistence only afterwards. -/
def saveBatch (s : Catalog) (pid : Nat) (fs : List AttrForm) :
    Except FormError Catalog :=
  match cleanBatch fs with
  | .error e => .error e
  | .ok _ => insertRows s (newRows pid fs)

/- ===============================================================
   C8: the serializer value resolution.
   =============================================================== -/

/-- The Python value returned by
ProductAttributeValueSerializer.get_value. -/
inductive PyValue where
  | vstr (v : String)
  | vnum (v : Int)
  | vbool (v : Bool)
  | vnone
deriving DecidableEq, Repr

/-- The tail of get_value after the text test failed: first non-null of
value_number then value_bool, else null. -/
def valueAfterText (v : ProductAttributeValue) : PyValue :=
  match v.value_number with
  | some n => .vnum n
  | none =>
    match v.value_bool with
    | some b => .vbool b
    | none => .vnone

/-- Embeds ProductAttributeValueSerializer.get_value
(indoApp/serializers.py lines 103 to 111): return value_text when it is
neither null nor the empty string, else value_number when non-null,
else value_bool when non-null, else null.  The declared data_type of
the owning Attribute is not an input at all. -/
def get_value (v : ProductAttributeValue) : PyValue :=
  match v.value_text with
  | some t => if t = "" then valueAfterText v else .vstr t
  | none => valueAfterText v

/- ===============================================================
   C9: deletion semantics of the declared on_delete rules.
   =============================================================== -/

/-- One breadth step of the cascade collector: add the ids of rows
whose parent is already collected. -/
def childIdsStep (s : Catalog) (acc : List Nat) : List Nat :=
  acc ++ (s.categories.filter (fun c =>
    c.id ∉ acc &&
      (match c.parent with
       | some p => p ∈ acc
       | none => false))).map (fun c => c.id)

/-- Iterated cascade collection with explicit fuel. -/
def expandDesc (s : Catalog) : Nat → List Nat → List Nat
  | 0, acc => acc
  | n + 1, acc => expandDesc s n (childIdsStep s acc)

/-- The set of category ids Django would collect when deleting the
given id: the id itself plus its descendants through the CASCADE self
foreign key (fuel bounded by the table size reaches every depth). -/
def cascadeIds (s : Catalog) (cid : Nat) : List Nat :=
  expandDesc s s.categories.length [cid]

/-- The error raised when a PROTECT relation blocks a deletion. -/
inductive DeleteError where
  | protectedError
deriving DecidableEq, Repr

/-- Embeds deletion of a Category row under the on_delete rules of
indoApp/models.py: children CASCADE (recursively), CategoryAttribute
rows CASCADE, BrandBrochure rows CASCADE, and Product.category PROTECT
blocks the whole deletion when any product references a collected
category. -/
def deleteCategory (s : Catalog) (cid : Nat) : Except DeleteError Catalog :=
  let d := cascadeIds s cid
  if s.products.any (fun p => p.category ∈ d) then
    .error .protectedError
  else
    .ok { s with
      categories := s.categories.filter (fun c => c.id ∉ d),
      categoryAttributes :=
        s.categoryAttributes.filter (fun ca => ca.category ∉ d),
      brochures := s.brochures.filter (fun b => b.category ∉ d) }

/-- Embeds deletion of a Brand row: Product.brand is SET_NULL, so every
referencing product keeps existing with a null brand, and BrandBrochure
rows CASCADE. -/
def deleteBrand (s : Catalog) (bid : Nat) : Catalog :=
  { s with
    brands := s.brands.filter (fun b => b.id ≠ bid),
    products := s.products.map (fun p =>
      if p.brand = some bid then { p with brand := none } else p),
    brochures := s.brochures.filter (fun br => br.brand ≠ bid) }

/- ===============================================================
   Concrete example data used by counterexamples and witnesses.
   =============================================================== -/

/-- A root category. -/
def catA : Category :=
  { id := 1, parent := none, name := "a", slug := "a", is_active := true }

/-- A childless depth-one category (its parent is the root catA). -/
def catB : Category :=
  { id := 2, parent := some 1, name := "b", slug := "b", is_active := true }

/-- A two-node tree: catA with single child catB. -/
def exC1 : Catalog :=
  { categories := [catA, catB], brands := [], products := [], attributes := [],
    categoryAttributes := [], pavs := [], brochures := [] }

/-- An active brand. -/
def brandX : Brand := { id := 7, name := "volt", is_active := true }

/-- An attribute declared with the number data type. -/
def attrNum : Attribute := { id := 3, name := "size", data_type := "number" }

/-- An active product anchored at catB with brand brandX. -/
def prodP : Product :=
  { id := 11, category := 2, brand := some 7, name := "heater",
    slug := "heater", is_active := true, created_at := 5 }

/-- A value row for attrNum whose text and number payloads are both
populated. -/
def pavMixed : ProductAttributeValue :=
  { product := 11, attribute_id := 3, value_text := some ("stray"),
    value_number := some 5, value_bool := none }

/-- A value row for attrNum with only the number payload populated. -/
def pavNum : ProductAttributeValue :=
  { product := 11, attribute_id := 4, value_text := none,
    value_number := some 5, value_bool := none }

/-- A populated catalog. -/
def exCatalog : Catalog :=
  { categories := [catA, catB], brands := [brandX], products := [prodP],
    attributes := [attrNum], categoryAttributes := [], pavs := [pavMixed],
    brochures := [] }

/-- A whitespace-only raw query string. -/
def blankQ : String := "   "

/-- A non-blank query string. -/
def qtv : String := "tv"

/-- A single-character query string. -/
def qa : String := "a"

/-- An inline form selecting attrNum. -/
def dupForm : AttrForm :=
  { has_data := true, delete := false, attribute_id := some 3,
    value_text := none, value_number := some 5, value_bool := none }

/-- A batch repeating the same attribute twice. -/
def dupBatch : List AttrForm := [dupForm, dupForm]

/-- An inline form selecting a fresh attribute id. -/
def goodForm : AttrForm :=
  { has_data := true, delete := false, attribute_id := some 4,
    value_text := none, value_number := some 9, value_bool := none }

/-- A batch with a single fresh attribute. -/
def goodBatch : List AttrForm := [goodForm]

/-- The catalog after saving goodBatch for product 11 on exCatalog. -/
def exAfterSave : Catalog :=
  { exCatalog with pavs := exCatalog.pavs ++ newRows 11 goodBatch }

/-- An attribute assignment of attrNum to the root category catA. -/
def caA : CategoryAttribute := { category := 1, attribute_id := 3 }

/-- The two-node tree with one attribute assignment and no products. -/
def exTree : Catalog :=
  { categories := [catA, catB], brands := [], products := [], attributes := [attrNum],
    categoryAttributes := [caA], pavs := [], brochures := [] }

/-- The expected state after deleting category 1 from exTree: both
categories and the assignment are gone. -/
def exTreeDel : Catalog :=
  { categories := [], brands := [], products := [], attributes := [attrNum],
    categoryAttributes := [], pavs := [], brochures := [] }

/-- A category whose slug is already populated. -/
def catSlugged : Category :=
  { id := 9, parent := none, name := "old name", slug := "old-name",
    is_active := true }

/-- A category saved with an empty slug. -/
def catNoSlug : Category :=
  { id := 10, parent := none, name := "New Gear", slug := "",
    is_active := true }

/-- A replacement name used when renaming catSlugged. -/
def newNameEx : String := "renamed"

/- ===============================================================
   Helper lemmas.
   =============================================================== -/

/-- Membership is preserved by the insertion step of the sort. -/
theorem mem_insertLe (le : α → α → Bool) (x a : α) :
    ∀ l : List α, a ∈ insertLe le x l ↔ a = x ∨ a ∈ l
  | [] => by simp [insertLe]
  | b :: l => by
    cases hc : le x b <;> simp [insertLe, hc, mem_insertLe le x a l] <;> tauto

/-- The sort used for order_by clauses permutes membership only. -/
theorem mem_sortLe (le : α → α → Bool) (a : α) :
    ∀ l : List α, a ∈ sortLe le l ↔ a ∈ l
  | [] => by simp [sortLe]
  | x :: l => by
    have ih := mem_sortLe le a l
    simp only [sortLe, List.foldr] at ih ⊢
    rw [mem_insertLe]
    simp [ih]

/-- Characterization of the kept attribute ids of a cons. -/
theorem keptAttrIds_cons (f : AttrForm) (rest : List AttrForm) :
    keptAttrIds (f :: rest) =
      if f.has_data && !f.delete then f.attribute_id :: keptAttrIds rest
      else keptAttrIds rest := by
  by_cases h : (f.has_data && !f.delete) = true <;>
    simp [keptAttrIds, keptForms, List.filter_cons, h]

/-- The clean loop succeeds exactly when the kept attribute ids are
pairwise distinct and disjoint from the already seen ones. -/
theorem formsetClean_ok_iff :
    ∀ (fs : List AttrForm) (seen : List (Option Nat)),
      formsetClean seen fs = .ok () ↔
        (keptAttrIds fs).Nodup ∧ ∀ a ∈ keptAttrIds fs, a ∉ seen
  | [], seen => by simp [formsetClean, keptAttrIds, keptForms]
  | f :: rest, seen => by
    rw [keptAttrIds_cons]
    by_cases hk : (f.has_data && !f.delete) = true
    · rw [if_pos hk]
      have hsk : (!f.has_data || f.delete) = false := by
        cases hd : f.has_data <;> cases he : f.delete <;> simp_all
      by_cases hm : f.attribute_id ∈ seen
      · have hL : formsetClean seen (f :: rest) = .error .duplicateAttribute := by
          simp [formsetClean, hsk, hm]
        constructor
        · intro h
          rw [hL] at h
          exact absurd h (by simp)
        · rintro ⟨-, hall⟩
          exact absurd hm (hall _ (List.mem_cons_self _ _))
      · have hstep : formsetClean seen (f :: rest) =
            formsetClean (f.attribute_id :: seen) rest := by
          simp [formsetClean, hsk, hm]
        rw [hstep, formsetClean_ok_iff rest]
        constructor
        · rintro ⟨h1, h2⟩
          have hhead : f.attribute_id ∉ keptAttrIds rest := by
            intro hmem
            exact (h2 _ hmem) (List.mem_cons_self _ _)
          refine ⟨List.nodup_cons.mpr ⟨hhead, h1⟩, ?_⟩
          intro a ha
          rcases List.mem_cons.mp ha with h | h
          · exact fun hs => hm (h ▸ hs)
          · exact fun hs => (h2 a h) (List.mem_cons.mpr (Or.inr hs))
        · rintro ⟨hnd, hall⟩
          rcases List.nodup_cons.mp hnd with ⟨hhead, h1⟩
          refine ⟨h1, ?_⟩
          intro a ha hs
          rcases List.mem_cons.mp hs with h | h
          · exact hhead (h ▸ ha)
          · exact (hall a (List.mem_cons.mpr (Or.inr ha))) h
    · rw [if_neg hk]
      have hsk : (!f.has_data || f.delete) = true := by
        cases hd : f.has_data <;> cases he : f.delete <;> simp_all
      have hstep : formsetClean seen (f :: rest) = formsetClean seen rest := by
        simp [formsetClean, hsk]
      rw [hstep, formsetClean_ok_iff rest]

/-- The clean loop returns either success or the duplicate error. -/
theorem formsetClean_ok_or_dup :
    ∀ (fs : List AttrForm) (seen : List (Option Nat)),
      formsetClean seen fs = .ok () ∨
        formsetClean seen fs = .error .duplicateAttribute
  | [], seen => Or.inl rfl
  | f :: rest, seen => by
    by_cases hsk : (!f.has_data || f.delete) = true
    · simp only [formsetClean, hsk, if_pos]
      exact formsetClean_ok_or_dup rest seen
    · have hsk2 : (!f.has_data || f.delete) = false := by simp_all
      by_cases hm : f.attribute_id ∈ seen
      · simp [formsetClean, hsk2, hm]
      · simp only [formsetClean, hsk2, Bool.false_eq_true, if_false, if_neg hm]
        exact formsetClean_ok_or_dup rest (f.attribute_id :: seen)

/-- Batch validation succeeds exactly on duplicate-free batches. -/
theorem cleanBatch_ok_iff (fs : List AttrForm) :
    cleanBatch fs = .ok () ↔ (keptAttrIds fs).Nodup := by
  rw [cleanBatch, formsetClean_ok_iff]
  simp

/-- The initial set is contained in one collection step. -/
theorem subset_childIdsStep (s : Catalog) (acc : List Nat) :
    acc ⊆ childIdsStep s acc :=
  List.subset_append_left _ _

/-- The initial set is contained in the iterated collection. -/
theorem subset_expandDesc (s : Catalog) :
    ∀ (n : Nat) (acc : List Nat), acc ⊆ expandDesc s n acc
  | 0, acc => by simp [expandDesc]
  | n + 1, acc => by
    rw [expandDesc]
    exact List.Subset.trans (subset_childIdsStep s acc) (subset_expandDesc s n _)

/-- The deleted id itself is always collected. -/
theorem self_mem_cascadeIds (s : Catalog) (cid : Nat) :
    cid ∈ cascadeIds s cid :=
  subset_expandDesc s s.categories.length [cid] (List.mem_singleton.mpr rfl)

/-- Every direct child row of the deleted id is collected. -/
theorem child_mem_cascadeIds (s : Catalog) (c : Category) (cid : Nat)
    (hc : c ∈ s.categories) (hp : c.parent = some cid) :
    c.id ∈ cascadeIds s cid := by
  rw [cascadeIds]
  have hpos : 0 < s.categories.length :=
    List.length_pos.mpr (List.ne_nil_of_mem hc)
  obtain ⟨n, hn⟩ : ∃ n, s.categories.length = n + 1 :=
    ⟨s.categories.length - 1, (Nat.succ_pred_eq_of_pos hpos).symm⟩
  rw [hn, expandDesc]
  apply subset_expandDesc
  by_cases hid : c.id = cid
  · exact List.mem_append_left _ (by simp [hid])
  · refine List.mem_append_right _ ?_
    refine List.mem_map.mpr ⟨c, List.mem_filter.mpr ⟨hc, ?_⟩, rfl⟩
    simp [hp, hid]

/- ===============================================================
   Claim theorems.
   =============================================================== -/

/-- C1 counterexample: in the two-node tree, catB has a parent and that
parent has no parent, so the claim requires level SUB; but the
serializer classification get_category_type returns LEAF for catB,
because catB has no children — the classification inspects the
children relation, not the parent chain. -/
theorem C1_counterexample :
    catB.parent = some 1 ∧ lookupParentId exC1 1 = none ∧
      get_category_type exC1 catB = "LEAF" ∧
      get_category_type exC1 catB ≠ "SUB" := by
  refine ⟨rfl, rfl, rfl, ?_⟩
  decide

/-- C1 amended: the serializer classification get_category_type returns
MAIN exactly when the node has no parent, SUB exactly when it has a
parent and at least one child, and LEAF exactly when it has a parent
and no children — it depends on the children relation, not on the
parent chain beyond the immediate parent; the admin classification
category_level, in contrast, is determined by the parent chain (Main at
depth zero, Sub at depth one). -/
theorem C1_classification (s : Catalog) (c : Category) :
    (get_category_type s c = "MAIN" ↔ c.parent = none) ∧
    (get_category_type s c = "SUB" ↔ c.parent ≠ none ∧ childrenOf s c ≠ []) ∧
    (get_category_type s c = "LEAF" ↔ c.parent ≠ none ∧ childrenOf s c = []) ∧
    (category_level s c = "Main" ↔ c.parent = none) ∧
    (category_level s c = "Sub" ↔
      ∃ pid, c.parent = some pid ∧ lookupParentId s pid = none) := by
  unfold get_category_type category_level
  rcases hp : c.parent with _ | pid
  · simp only [if_pos rfl]
    refine ⟨by simp, by simp, by simp, by simp, by simp⟩
  · have hne : (some pid : Option Nat) ≠ none := by simp
    simp only [if_neg hne]
    rcases hg : lookupParentId s pid with _ | gid
    · by_cases he : (childrenOf s c).isEmpty = true
      · have hnil : childrenOf s c = [] := List.isEmpty_iff.mp he
        simp [he, hnil, hg]
      · have hnil : childrenOf s c ≠ [] := fun h => he (by simp [h])
        simp [he, hnil, hg]
    · by_cases he : (childrenOf s c).isEmpty = true
      · have hnil : childrenOf s c = [] := List.isEmpty_iff.mp he
        simp [he, hnil, hg]
      · have hnil : childrenOf s c ≠ [] := fun h => he (by simp [h])
        simp [he, hnil, hg]

/-- C2: every non-blank search request fails, because the product
filter uses the lookup path category__full_path and full_path is not a
field of the Category model, so the ORM raises FieldError when the
product queryset is built — no product list is ever computed, contrary
to the claimed matching behaviour.  The first conjunct shows the
product branch errors for every state, query and limit; the second
shows the whole endpoint errors on every non-blank query. -/
theorem C2_product_search_raises (s : Catalog) (q qraw : String)
    (limit pl cl bl : Nat) :
    searchProducts s q limit = .error .fieldError ∧
      (pyStrip qraw ≠ "" → searchGet s qraw pl cl bl = .error .fieldError) := by
  constructor
  · rfl
  · intro h
    unfold searchGet
    rw [if_neg h]
    rfl

/-- C2 witness: the concrete populated catalog with the non-blank
query qtv yields the field error, not a result list. -/
theorem C2_witness :
    pyStrip qtv ≠ "" ∧ searchGet exCatalog qtv 8 6 6 = .error .fieldError := by
  refine ⟨by decide, ?_⟩
  exact (C2_product_search_raises exCatalog qtv qtv 8 8 6 6).2 (by decide)

/-- C3: get_leaf_descendants never returns the node, its children or
its grandchildren: its first statement reads category.category_type,
which is a SerializerMethodField and not an attribute of Category model
instances, so Python raises AttributeError for every input. -/
theorem C3_leaf_descendants_raises (s : Catalog) (c : Category) :
    get_leaf_descendants s c = .error .attributeError := rfl

/-- C4 counterexample: at the concrete populated catalog with query qa
and limit 6, the category candidate fetch raises FieldError instead of
returning a classified candidate list — no candidate set of any size,
let alone three times the limit, is fetched. -/
theorem C4_counterexample :
    searchCategories exCatalog qa 6 = .error .fieldError := rfl

/-- C4 amended: the source slices the category candidate query at two
times the categories limit (not three) and truncates each bucket to the
limit only after the classification loop; but the candidate filter
includes the lookup full_path, which is not a field of the Category
model, so the fetch raises FieldError for every state, query and limit
and no candidate is ever fetched or classified. -/
theorem C4_category_fetch_raises (s : Catalog) (q : String) (limit : Nat) :
    searchCategories s q limit = .error .fieldError := rfl

/-- C5: a query that strips to the empty string short-circuits to the
canonical empty response — empty product, brand and bucket lists and an
empty query echo — for every catalog and all limits.  No index access
is performed: the branches that would touch the catalog are not
reached (indeed they would raise, as the other theorems show, yet the
result here is a successful response). -/
theorem C5_blank_query (s : Catalog) (qraw : String) (pl cl bl : Nat)
    (h : pyStrip qraw = "") :
    searchGet s qraw pl cl bl = .ok emptySearchResponse := by
  unfold searchGet
  rw [h]
  rfl

/-- C5 witness: the whitespace-only query against the populated catalog
returns the canonical empty response. -/
theorem C5_witness :
    pyStrip blankQ = "" ∧
      searchGet exCatalog blankQ 8 6 6 = .ok emptySearchResponse :=
  ⟨by decide, C5_blank_query exCatalog blankQ 8 6 6 (by decide)⟩

/-- C6 counterexample: catB has a parent and no children, so by the
claim it is LEAF and must be excluded from the valid parent candidates;
but the admin queryset includes it, because the filter keeps every node
whose parent chain has length at most one regardless of children. -/
theorem C6_counterexample :
    catB ∈ validParentCandidates exC1 ∧ catB.parent ≠ none ∧
      childrenOf exC1 catB = [] := by
  refine ⟨?_, by decide, rfl⟩
  decide

/-- C6 amended: the admin parent dropdown queryset contains exactly the
stored categories whose parent is null or whose parent has a null
parent (parent-chain depth at most one); childless depth-one nodes
remain eligible, no InvalidParent or InvalidDepth error exists, and
nothing excludes the node itself or its descendants. -/
theorem C6_parent_candidates (s : Catalog) (c : Category) :
    c ∈ validParentCandidates s ↔
      c ∈ s.categories ∧ (c.parent = none ∨ grandparentId s c = none) := by
  unfold validParentCandidates
  rw [mem_sortLe, List.mem_dedup, List.mem_filter]
  simp [Option.isNone_iff_eq_none]

/-- C7: the inline batch for one product is validated before
persistence: validation fails with the duplicate error exactly when an
attribute choice repeats among the kept forms; a failing batch is
rejected as a whole (the save path returns the error and produces no
state, so no partial insert occurs); and any state produced by a
successful save extends the old rows by exactly the batch rows and
keeps the (product, attribute) keys pairwise distinct, as the
unique_together constraint demands. -/
theorem C7_unique_attribute_batch (s : Catalog) (pid : Nat)
    (fs : List AttrForm) :
    (cleanBatch fs = .error .duplicateAttribute ↔ ¬ (keptAttrIds fs).Nodup) ∧
    (¬ (keptAttrIds fs).Nodup →
      saveBatch s pid fs = .error .duplicateAttribute) ∧
    (∀ s2, saveBatch s pid fs = .ok s2 →
      (s2.pavs.map pavKey).Nodup ∧ s2.pavs = s.pavs ++ newRows pid fs) := by
  have herr : cleanBatch fs = .error .duplicateAttribute ↔
      ¬ (keptAttrIds fs).Nodup := by
    constructor
    · intro h hn
      have := (cleanBatch_ok_iff fs).mpr hn
      rw [h] at this
      exact absurd this (by simp)
    · intro hn
      rcases formsetClean_ok_or_dup fs [] with h | h
      · exact absurd ((cleanBatch_ok_iff fs).mp h) hn
      · exact h
  refine ⟨herr, ?_, ?_⟩
  · intro hn
    unfold saveBatch
    rw [herr.mpr hn]
  · intro s2 h
    rcases formsetClean_ok_or_dup fs [] with hok | hdup
    · unfold saveBatch at h
      rw [show cleanBatch fs = Except.ok () from hok] at h
      unfold insertRows at h
      by_cases hnd : ((s.pavs ++ newRows pid fs).map pavKey).Nodup
      · rw [if_pos hnd] at h
        cases h
        exact ⟨hnd, rfl⟩
      · rw [if_neg hnd] at h
        exact absurd h (by simp)
    · unfold saveBatch at h
      rw [show cleanBatch fs = Except.error FormError.duplicateAttribute from hdup] at h
      exact absurd h (by simp)

/-- C7 witness: the duplicate batch is rejected wholly on the populated
catalog; the fresh single-form batch saves and its resulting state is
the old rows extended by the batch row with distinct keys. -/
theorem C7_witness :
    saveBatch exCatalog 11 dupBatch = .error .duplicateAttribute ∧
      (exAfterSave.pavs.map pavKey).Nodup ∧
      exAfterSave.pavs = exCatalog.pavs ++ newRows 11 goodBatch := by
  refine ⟨(C7_unique_attribute_batch exCatalog 11 dupBatch).2.1 (by decide), ?_⟩
  exact (C7_unique_attribute_batch exCatalog 11 goodBatch).2.2 exAfterSave rfl

/-- C8 counterexample: pavMixed belongs to attrNum whose declared kind
is number and its numeric payload is populated, but get_value returns
the text payload — the reader picks the first populated field and never
consults the declared kind. -/
theorem C8_counterexample :
    attrNum.data_type = "number" ∧ pavMixed.attribute_id = attrNum.id ∧
      pavMixed.value_number = some 5 ∧ get_value pavMixed = .vstr ("stray") :=
  ⟨rfl, rfl, rfl, rfl⟩

/-- C8 amended: get_value resolves the authoritative payload purely by
population, in the fixed precedence text (when non-null and non-empty),
then number (when non-null), then bool (when non-null), else null; the
declared data_type of the owning Attribute is not an input of the
computation at all. -/
theorem C8_value_precedence (v : ProductAttributeValue) :
    (∀ t, v.value_text = some t → t ≠ "" → get_value v = .vstr t) ∧
    ((v.value_text = none ∨ v.value_text = some "") →
      ((∀ n, v.value_number = some n → get_value v = .vnum n) ∧
        (v.value_number = none →
          ∀ b, v.value_bool = some b → get_value v = .vbool b) ∧
        (v.value_number = none → v.value_bool = none →
          get_value v = .vnone))) := by
  constructor
  · intro t ht hne
    unfold get_value
    rw [ht]
    simp [hne]
  · intro htext
    have hafter : get_value v = valueAfterText v := by
      unfold get_value
      rcases htext with h | h <;> rw [h] <;> simp
    refine ⟨?_, ?_, ?_⟩
    · intro n hn
      rw [hafter]
      unfold valueAfterText
      rw [hn]
    · intro hn b hb
      rw [hafter]
      unfold valueAfterText
      rw [hn, hb]
    · intro hn hb
      rw [hafter]
      unfold valueAfterText
      rw [hn, hb]

/-- C8 witness: the concrete rows exercise both the populated-text and
the number-only paths of the precedence characterization. -/
theorem C8_witness :
    get_value pavMixed = .vstr ("stray") ∧ get_value pavNum = .vnum 5 :=
  ⟨(C8_value_precedence pavMixed).1 ("stray") rfl (by decide),
   ((C8_value_precedence pavNum).2 (Or.inl rfl)).1 5 rfl⟩

/-- C9: deleting a Category is blocked with the protected error while
any product references it as its anchor; a successful deletion removes
its child categories and its attribute assignments while leaving the
product and value tables untouched; and deleting a Brand keeps every
product (same count, with references to the deleted brand nulled) and
removes the brand row. -/
theorem C9_delete_semantics (s : Catalog) (cid bid : Nat) :
    ((∃ p ∈ s.products, p.category = cid) →
      deleteCategory s cid = .error .protectedError) ∧
    (∀ s2, deleteCategory s cid = .ok s2 →
      (∀ c ∈ s.categories, c.parent = some cid → c ∉ s2.categories) ∧
      (∀ ca ∈ s.categoryAttributes, ca.category = cid →
        ca ∉ s2.categoryAttributes) ∧
      s2.products = s.products ∧ s2.pavs = s.pavs) ∧
    ((deleteBrand s bid).products.length = s.products.length ∧
      (∀ p ∈ (deleteBrand s bid).products, p.brand ≠ some bid) ∧
      (∀ b ∈ (deleteBrand s bid).brands, b.id ≠ bid)) := by
  refine ⟨?_, ?_, ?_, ?_, ?_⟩
  · rintro ⟨p, hp, hcat⟩
    unfold deleteCategory
    rw [if_pos]
    refine List.any_eq_true.mpr ⟨p, hp, ?_⟩
    simp [hcat, self_mem_cascadeIds]
  · intro s2 h
    unfold deleteCategory at h
    by_cases hb : s.products.any (fun p => p.category ∈ cascadeIds s cid) = true
    · rw [if_pos hb] at h
      exact absurd h (by simp)
    · rw [if_neg hb] at h
      cases h
      refine ⟨?_, ?_, rfl, rfl⟩
      · intro c hc hp hmem
        have := (List.mem_filter.mp hmem).2
        simp only [decide_eq_true_eq] at this
        exact this (child_mem_cascadeIds s c cid hc hp)
      · intro ca hca hcat hmem
        have := (List.mem_filter.mp hmem).2
        simp only [decide_eq_true_eq] at this
        exact this (hcat ▸ self_mem_cascadeIds s cid)
  · exact (List.length_map _ _)
  · intro p hp
    rcases List.mem_map.mp hp with ⟨p0, _, heq⟩
    by_cases hb0 : p0.brand = some bid
    · rw [← heq]
      simp [hb0]
    · rw [← heq]
      simp [hb0]
  · intro b hb
    have := (List.mem_filter.mp hb).2
    simpa using this

/-- C9 witness: deleting catB from the populated catalog is blocked by
its referencing product; deleting catA from the product-free tree
removes the child catB and the assignment caA; and deleting brandX
keeps the product count. -/
theorem C9_witness :
    deleteCategory exCatalog 2 = .error .protectedError ∧
      catB ∉ exTreeDel.categories ∧ caA ∉ exTreeDel.categoryAttributes ∧
      (deleteBrand exCatalog 7).products.length = exCatalog.products.length := by
  have hdel : deleteCategory exTree 1 = .ok exTreeDel := rfl
  have hparts := (C9_delete_semantics exTree 1 0).2.1 exTreeDel hdel
  refine ⟨?_, ?_, ?_, ?_⟩
  · exact (C9_delete_semantics exCatalog 2 7).1 ⟨prodP, by decide, rfl⟩
  · exact hparts.1 catB (by decide) rfl
  · exact hparts.2.1 caA (by decide) rfl
  · exact (C9_delete_semantics exCatalog 2 7).2.2.1

/-- C10: saving a category whose slug is already non-empty leaves the
slug unchanged even when the name has been changed, and everything else
unchanged too; the slug is derived from the name only when it is empty
at save time. -/
theorem C10_slug_stable (c : Category) (newName : String) :
    (c.slug ≠ "" →
      (categorySave { c with name := newName }).slug = c.slug ∧
      categorySave { c with name := newName } = { c with name := newName }) ∧
    (c.slug = "" → (categorySave c).slug = slugify c.name) := by
  constructor
  · intro h
    unfold categorySave
    rw [if_neg h]
    exact ⟨rfl, rfl⟩
  · intro h
    unfold categorySave
    rw [if_pos h]

/-- C10 witness: renaming the already-slugged category keeps its slug;
saving the slugless category derives the slug from its name. -/
theorem C10_witness :
    (categorySave { catSlugged with name := newNameEx }).slug = catSlugged.slug ∧
      (categorySave catNoSlug).slug = slugify catNoSlug.name :=
  ⟨((C10_slug_stable catSlugged newNameEx).1 (by decide)).1,
   (C10_slug_stable catNoSlug newNameEx).2 rfl⟩

end Indo
